import Mathlib

/-!
Shallow embedding of the restaurant-reservation API
(Express + Prisma routes in src/routes/reservations.js, src/routes/users.js,
the tables router, and the Prisma schema).

The Prisma store is modelled as lists of records plus an autoincrement
counter for reservations.  Each HTTP handler becomes a pure function from
the store and the (optional, JSON-ish) request-body fields to a response
(status code, optional body, optional error message) and the post store.

JavaScript truthiness on optional fields is modelled explicitly
(missing = none, empty string and 0 are falsy).  `new Date(date)` is
abstracted as the identity on the input date string: the claims under
study never probe date-string normalization, only exact-slot equality.
Prisma `update where id` is modelled as a map over the list replacing
every record with the given id (ids are unique in the real store);
`findFirst` / `findUnique` are `List.find?` in the store's natural order.
-/

namespace Resto

structure User where
  id : Nat
  username : String
  email : String
  password : String
  isAdmin : Bool
deriving Repr, DecidableEq

structure Table where
  id : Nat
  name : String
  capacity : Int
  isAvailable : Bool
deriving Repr, DecidableEq

structure Reservation where
  id : Nat
  date : String
  time : String
  people : Int
  status : String
  userId : Nat
  tableId : Option Nat
deriving Repr, DecidableEq

structure Store where
  users : List User
  tables : List Table
  reservations : List Reservation
  nextReservationId : Nat
deriving Repr, DecidableEq

/-- An HTTP response: status code, optional success body, optional error
message (the `message` field of the JSON error envelope). -/
structure Rsp (α : Type) where
  status : Nat
  body : Option α
  error : Option String
deriving Repr, DecidableEq

/-- A reservation as returned with Prisma `include: { user, table }`. -/
structure Enriched where
  resv : Reservation
  user : Option User
  table : Option Table
deriving Repr, DecidableEq

/-- Prisma include resolution: fetch the user and (optional) table rows
referenced by the reservation from the given store. -/
def enrich (s : Store) (r : Reservation) : Enriched :=
  { resv := r
    user := s.users.find? (fun u => u.id == r.userId)
    table := r.tableId.bind (fun tid => s.tables.find? (fun t => t.id == tid)) }

/-- JS truthiness of an optional string field (undefined and "" are falsy). -/
def optStrTruthy : Option String → Bool
  | none => false
  | some s => !s.isEmpty

/-- JS truthiness of an optional integer field (undefined and 0 are falsy). -/
def optIntTruthy : Option Int → Bool
  | none => false
  | some n => n != 0

/-- JS truthiness of an optional id field (undefined and 0 are falsy). -/
def optNatTruthy : Option Nat → Bool
  | none => false
  | some n => n != 0

/-- The validation guard of POST /reservations:
`!date || !time || !people || people <= 0 || !userId`. -/
def createValidationFails (date time : Option String) (people : Option Int)
    (userId : Option Nat) : Bool :=
  !optStrTruthy date || !optStrTruthy time || !optIntTruthy people ||
    decide (people.getD 0 ≤ 0) || !optNatTruthy userId

/-- Candidate-table predicate of the `findFirst` in POST /reservations:
capacity ≥ party size and availability flag true. -/
def candidatePred (p : Int) (t : Table) : Bool :=
  decide (p ≤ t.capacity) && t.isAvailable

/-- Conflict predicate of POST /reservations: same table, same date, same
time string, status in {booked, seated}. -/
def conflictsWith (tid : Nat) (d tm : String) (r : Reservation) : Bool :=
  r.tableId == some tid && r.date == d && r.time == tm &&
    (r.status == "booked" || r.status == "seated")

/-- Prisma `table.update where id, data isAvailable` as a list map. -/
def updateTableAvail (tid : Nat) (avail : Bool) (ts : List Table) : List Table :=
  ts.map (fun t => if t.id == tid then { t with isAvailable := avail } else t)

/-- POST /reservations (src/routes/reservations.js lines 7-73). -/
def createReservation (s : Store) (date time : Option String)
    (people : Option Int) (userId : Option Nat) : Rsp Enriched × Store :=
  if createValidationFails date time people userId then
    (⟨400, none, some "Date, time, people (positive number), and userId are required"⟩, s)
  else
    match s.tables.find? (candidatePred (people.getD 0)) with
    | none => (⟨400, none, some "No available table for this party size"⟩, s)
    | some table =>
      match s.reservations.find? (conflictsWith table.id (date.getD "") (time.getD "")) with
      | some _ => (⟨400, none, some "Table is already reserved for this time"⟩, s)
      | none =>
        let newR : Reservation :=
          { id := s.nextReservationId, date := date.getD "", time := time.getD ""
            people := people.getD 0, status := "booked"
            userId := userId.getD 0, tableId := some table.id }
        let s1 : Store :=
          { s with reservations := s.reservations ++ [newR]
                   nextReservationId := s.nextReservationId + 1 }
        let s2 : Store := { s1 with tables := updateTableAvail table.id false s1.tables }
        (⟨201, some (enrich s1 newR), none⟩, s2)

/-- GET /reservations/:id (read-only, so no post store). -/
def getReservation (s : Store) (id : Nat) : Rsp Enriched :=
  match s.reservations.find? (fun r => r.id == id) with
  | none => ⟨404, none, some "Reservation not found"⟩
  | some r => ⟨200, some (enrich s r), none⟩

/-- The data written by the generic PUT /reservations/:id: `date` and
`people` only when truthy, `time` and `status` whenever defined. -/
def applyResvUpdate (date time : Option String) (people : Option Int)
    (status : Option String) (r : Reservation) : Reservation :=
  { r with
    date := if optStrTruthy date then date.getD r.date else r.date
    time := time.getD r.time
    people := if optIntTruthy people then people.getD r.people else r.people
    status := status.getD r.status }

/-- PUT /reservations/:id (src/routes/reservations.js lines 107-129);
Prisma error P2025 on a missing row becomes the 404. -/
def updateReservation (s : Store) (id : Nat) (date time : Option String)
    (people : Option Int) (status : Option String) : Rsp Enriched × Store :=
  match s.reservations.find? (fun r => r.id == id) with
  | none => (⟨404, none, some "Reservation not found"⟩, s)
  | some r0 =>
    let s1 : Store :=
      { s with reservations :=
          s.reservations.map (fun x =>
            if x.id == id then applyResvUpdate date time people status x else x) }
    (⟨200, some (enrich s1 (applyResvUpdate date time people status r0)), none⟩, s1)

/-- The per-row effect of the `status: 'cancelled'` update of
PUT /reservations/:id/cancel. -/
def setCancelled (id : Nat) (x : Reservation) : Reservation :=
  if x.id == id then { x with status := "cancelled" } else x

/-- PUT /reservations/:id/cancel (src/routes/reservations.js lines 132-161).
The table-availability restore is guarded by JS truthiness of `tableId`. -/
def cancelReservation (s : Store) (id : Nat) : Rsp Enriched × Store :=
  match s.reservations.find? (fun r => r.id == id) with
  | none => (⟨404, none, some "Reservation not found"⟩, s)
  | some r0 =>
    let s1 : Store :=
      { s with reservations := s.reservations.map (setCancelled id) }
    let s2 : Store :=
      if optNatTruthy r0.tableId then
        { s1 with tables := updateTableAvail (r0.tableId.getD 0) true s1.tables }
      else s1
    (⟨200, some (enrich s1 { r0 with status := "cancelled" }), none⟩, s2)

/-- DELETE /reservations/:id (src/routes/reservations.js lines 164-191). -/
def deleteReservation (s : Store) (id : Nat) : Rsp Unit × Store :=
  match s.reservations.find? (fun r => r.id == id) with
  | none => (⟨404, none, some "Reservation not found"⟩, s)
  | some r0 =>
    let s1 : Store :=
      { s with reservations := s.reservations.filter (fun x => !(x.id == id)) }
    let s2 : Store :=
      if optNatTruthy r0.tableId then
        { s1 with tables := updateTableAvail (r0.tableId.getD 0) true s1.tables }
      else s1
    (⟨204, none, none⟩, s2)

/-- A JSON value as far as the table PATCH route inspects one. -/
inductive JVal where
  | jNull
  | jBool (b : Bool)
  | jNum (q : Rat)
  | jStr (s : String)
deriving Repr, DecidableEq

/-- JS truthiness of a JSON value (null, false, 0 and "" are falsy). -/
def JVal.truthy : JVal → Bool
  | .jNull => false
  | .jBool b => b
  | .jNum q => decide (q ≠ 0)
  | .jStr s => !s.isEmpty

/-- `typeof v === 'string'`. -/
def JVal.isString : JVal → Bool
  | .jStr _ => true
  | _ => false

/-- `typeof v === 'boolean'`. -/
def JVal.isBoolean : JVal → Bool
  | .jBool _ => true
  | _ => false

/-- `Number.isInteger(v)`. -/
def JVal.isIntegerNum : JVal → Bool
  | .jNum q => q.den == 1
  | _ => false

/-- `v >= 1` for the numeric values the capacity check guards with
`Number.isInteger` (false on non-numbers, which the guard rules out). -/
def JVal.geOne : JVal → Bool
  | .jNum q => decide (1 ≤ q)
  | _ => false

def JVal.asStr : JVal → String
  | .jStr s => s
  | _ => ""

def JVal.asInt : JVal → Int
  | .jNum q => q.num
  | _ => 0

def JVal.asBool : JVal → Bool
  | .jBool b => b
  | _ => false

/-- The `updates` object built by PATCH /tables/:id. -/
structure TableUpdates where
  name : Option String
  capacity : Option Int
  isAvailable : Option Bool
deriving Repr, DecidableEq

/-- Field filtering of PATCH /tables/:id:
`if (name && typeof name === 'string') updates.name = name;` etc. -/
def tableUpdates (name capacity isAvailable : Option JVal) : TableUpdates :=
  { name :=
      match name with
      | some v => if v.truthy && v.isString then some v.asStr else none
      | none => none
    capacity :=
      match capacity with
      | some v => if v.truthy && v.isIntegerNum && v.geOne then some v.asInt else none
      | none => none
    isAvailable :=
      match isAvailable with
      | some v => if v.isBoolean then some v.asBool else none
      | none => none }

/-- `Object.keys(updates).length === 0`. -/
def TableUpdates.isEmpty (u : TableUpdates) : Bool :=
  u.name.isNone && u.capacity.isNone && u.isAvailable.isNone

def applyTableUpdates (u : TableUpdates) (t : Table) : Table :=
  { t with
    name := u.name.getD t.name
    capacity := u.capacity.getD t.capacity
    isAvailable := u.isAvailable.getD t.isAvailable }

/-- PATCH /tables/:id (tables router lines 117-149). -/
def patchTable (s : Store) (id : Nat) (name capacity isAvailable : Option JVal) :
    Rsp Table × Store :=
  let u := tableUpdates name capacity isAvailable
  if u.isEmpty then (⟨400, none, some "No valid fields to update"⟩, s)
  else
    match s.tables.find? (fun t => t.id == id) with
    | none => (⟨404, none, some ("Table with id " ++ toString id ++ " not found")⟩, s)
    | some t0 =>
      let s1 : Store :=
        { s with tables :=
            s.tables.map (fun x => if x.id == id then applyTableUpdates u x else x) }
      (⟨200, some (applyTableUpdates u t0), none⟩, s1)

/-- The `updates` object built by PATCH /users/:id. -/
structure UserUpdates where
  username : Option String
  email : Option String
  password : Option String
  isAdmin : Option Bool
deriving Repr, DecidableEq

/-- Field filtering of PATCH /users/:id: the three string fields are
truthiness-tested, `isAdmin` only against `undefined`. -/
def userUpdates (username email password : Option String) (isAdmin : Option Bool) :
    UserUpdates :=
  { username := if optStrTruthy username then username else none
    email := if optStrTruthy email then email else none
    password := if optStrTruthy password then password else none
    isAdmin := isAdmin }

def UserUpdates.isEmpty (u : UserUpdates) : Bool :=
  u.username.isNone && u.email.isNone && u.password.isNone && u.isAdmin.isNone

def applyUserUpdates (u : UserUpdates) (x : User) : User :=
  { x with
    username := u.username.getD x.username
    email := u.email.getD x.email
    password := u.password.getD x.password
    isAdmin := u.isAdmin.getD x.isAdmin }

/-- PATCH /users/:id (src/routes/users.js lines 59-89). -/
def patchUser (s : Store) (id : Nat) (username email password : Option String)
    (isAdmin : Option Bool) : Rsp User × Store :=
  let u := userUpdates username email password isAdmin
  if u.isEmpty then (⟨400, none, some "No fields to update"⟩, s)
  else
    match s.users.find? (fun x => x.id == id) with
    | none => (⟨404, none, some ("User with id " ++ toString id ++ " not found")⟩, s)
    | some x0 =>
      let s1 : Store :=
        { s with users :=
            s.users.map (fun x => if x.id == id then applyUserUpdates u x else x) }
      (⟨200, some (applyUserUpdates u x0), none⟩, s1)

/-! Concrete sample data used by the witness theorems. -/

def aliceU : User := ⟨1, "alice", "alice@example.com", "pw", true⟩

def tableOne : Table := ⟨1, "T1", 4, true⟩

/-- A store with one user, one free 4-top table and no reservations. -/
def storeA : Store := ⟨[aliceU], [tableOne], [], 1⟩

def bookedR : Reservation := ⟨1, "2025-06-15", "19:00", 2, "booked", 1, some 1⟩

def cancelledR : Reservation := ⟨1, "2025-06-15", "19:00", 2, "cancelled", 1, some 1⟩

/-- Like `storeA` but table 1 already has an active booking at the slot. -/
def storeB : Store := ⟨[aliceU], [tableOne], [bookedR], 2⟩

/-- Like `storeB` but the existing reservation is cancelled. -/
def storeC : Store := ⟨[aliceU], [tableOne], [cancelledR], 2⟩

/-- A store whose only table is too small and unavailable. -/
def storeD : Store := ⟨[aliceU], [⟨1, "T1", 2, false⟩], [], 1⟩

/-- A store holding a reservation with no bound table. -/
def storeE : Store := ⟨[aliceU], [tableOne], [⟨1, "2025-06-15", "19:00", 2, "booked", 1, none⟩], 2⟩

/-! List helper lemmas. -/

/-- `find?` commutes with mapping a function that does not change the
predicate's verdict. -/
theorem find?_map_pres {α : Type} (p : α → Bool) (f : α → α)
    (hp : ∀ x, p (f x) = p x) (l : List α) :
    (l.map f).find? p = (l.find? p).map f := by
  rw [List.find?_map]
  have h : p ∘ f = p := funext hp
  rw [h]

/-- Mapping a pointwise-idempotent function twice equals mapping it once. -/
theorem map_idem_of {α : Type} (f : α → α) (hf : ∀ x, f (f x) = f x) (l : List α) :
    (l.map f).map f = l.map f := by
  rw [List.map_map]
  have h : f ∘ f = f := funext hf
  rw [h]

theorem setCancelled_id (id : Nat) (x : Reservation) :
    (setCancelled id x).id = x.id := by
  unfold setCancelled; split <;> rfl

theorem setCancelled_tableId (id : Nat) (x : Reservation) :
    (setCancelled id x).tableId = x.tableId := by
  unfold setCancelled; split <;> rfl

theorem setCancelled_idem (id : Nat) (x : Reservation) :
    setCancelled id (setCancelled id x) = setCancelled id x := by
  unfold setCancelled
  by_cases h : x.id == id <;> simp [h]

theorem updateTableAvail_idem (tid : Nat) (b : Bool) (ts : List Table) :
    updateTableAvail tid b (updateTableAvail tid b ts) = updateTableAvail tid b ts := by
  unfold updateTableAvail
  apply map_idem_of
  intro x
  by_cases h : x.id == tid <;> simp [h]

/-- Every row of an availability update that carries the targeted id has
the written availability value. -/
theorem mem_updateTableAvail (tid : Nat) (b : Bool) (ts : List Table) :
    ∀ tb ∈ updateTableAvail tid b ts, tb.id = tid → tb.isAvailable = b := by
  intro tb htb hid
  unfold updateTableAvail at htb
  rw [List.mem_map] at htb
  obtain ⟨x, hx, rfl⟩ := htb
  by_cases h : x.id = tid
  · simp [h]
  · simp [h] at hid

/-- Every row of a cancel update that carries the targeted id has status
cancelled. -/
theorem mem_map_setCancelled (id : Nat) (l : List Reservation) :
    ∀ x ∈ l.map (setCancelled id), x.id = id → x.status = "cancelled" := by
  intro x hx hxid
  rw [List.mem_map] at hx
  obtain ⟨y, hy, rfl⟩ := hx
  unfold setCancelled at hxid ⊢
  by_cases h : y.id = id
  · simp [h]
  · simp [h] at hxid

/-- C4: a CreateReservation call with a missing or empty date, time or
userId, or a missing or non-positive party size, answers 400 with the
validation message and leaves the store untouched. -/
theorem c4_validation_rejects (s : Store) (date time : Option String)
    (people : Option Int) (userId : Option Nat)
    (h : optStrTruthy date = false ∨ optStrTruthy time = false ∨
         people = none ∨ people.getD 0 ≤ 0 ∨ optNatTruthy userId = false) :
    createReservation s date time people userId =
      (⟨400, none, some "Date, time, people (positive number), and userId are required"⟩, s) := by
  have hv : createValidationFails date time people userId = true := by
    unfold createValidationFails
    rcases h with h | h | h | h | h
    · simp [h]
    · simp [h]
    · subst h; simp [optIntTruthy]
    · simp [h]
    · simp [h]
  simp [createReservation, hv]

/-- C3: with valid inputs but no table that is both large enough and
available, CreateReservation answers 400 NoTableAvailable and the store is
unchanged. -/
theorem c3_no_table_available (s : Store) (date time : Option String)
    (people : Option Int) (userId : Option Nat)
    (hv : createValidationFails date time people userId = false)
    (h : ∀ t ∈ s.tables, candidatePred (people.getD 0) t = false) :
    createReservation s date time people userId =
      (⟨400, none, some "No available table for this party size"⟩, s) := by
  have ht : s.tables.find? (candidatePred (people.getD 0)) = none := by
    rw [List.find?_eq_none]
    intro x hx
    simp [h x hx]
  simp [createReservation, hv, ht]

/-- C1: with valid inputs, a first candidate table (capacity ≥ party size
and available) and no active conflicting reservation on it at the exact
slot, CreateReservation answers 201 with a booked reservation bound to
that table and the given user, enriched with its user and table rows, and
the candidate table's availability flag becomes false in the store. -/
theorem c1_create_success (s : Store) (date time : Option String)
    (people : Option Int) (userId : Option Nat) (t : Table)
    (hv : createValidationFails date time people userId = false)
    (ht : s.tables.find? (candidatePred (people.getD 0)) = some t)
    (hc : s.reservations.find? (conflictsWith t.id (date.getD "") (time.getD "")) = none) :
    (createReservation s date time people userId).1.status = 201 ∧
    (createReservation s date time people userId).1.body.map (fun e => e.resv.status) =
      some "booked" ∧
    (createReservation s date time people userId).1.body.map (fun e => e.resv.tableId) =
      some (some t.id) ∧
    (createReservation s date time people userId).1.body.map (fun e => e.resv.userId) =
      some (userId.getD 0) ∧
    (createReservation s date time people userId).1.body.map (fun e => e.user) =
      some (s.users.find? (fun u => u.id == userId.getD 0)) ∧
    (createReservation s date time people userId).1.body.map (fun e => e.table) =
      some (s.tables.find? (fun tb => tb.id == t.id)) ∧
    ∀ tb ∈ (createReservation s date time people userId).2.tables,
      tb.id = t.id → tb.isAvailable = false := by
  refine ⟨?_, ?_, ?_, ?_, ?_, ?_, ?_⟩
  · simp [createReservation, hv, ht, hc]
  · simp [createReservation, hv, ht, hc, enrich]
  · simp [createReservation, hv, ht, hc, enrich]
  · simp [createReservation, hv, ht, hc, enrich]
  · simp [createReservation, hv, ht, hc, enrich]
  · simp [createReservation, hv, ht, hc, enrich]
  · simp only [createReservation, hv, ht, hc, Bool.false_eq_true, if_false]
    intro tb htb
    exact mem_updateTableAvail t.id false _ tb (by simpa using htb)

/-- C2: with valid inputs and a selected candidate table, an existing
reservation on that table at the exact same date and time string with
status booked or seated makes CreateReservation answer 400 TableConflict
with no store write; conversely, when every reservation at that slot has a
status outside that set, creation is not blocked and answers 201. -/
theorem c2_conflict_exact (s : Store) (date time : Option String)
    (people : Option Int) (userId : Option Nat) (t : Table)
    (hv : createValidationFails date time people userId = false)
    (ht : s.tables.find? (candidatePred (people.getD 0)) = some t) :
    ((∃ r ∈ s.reservations, r.tableId = some t.id ∧ r.date = date.getD "" ∧
        r.time = time.getD "" ∧ (r.status = "booked" ∨ r.status = "seated")) →
      createReservation s date time people userId =
        (⟨400, none, some "Table is already reserved for this time"⟩, s)) ∧
    ((∀ r ∈ s.reservations, r.tableId = some t.id → r.date = date.getD "" →
        r.time = time.getD "" → r.status ≠ "booked" ∧ r.status ≠ "seated") →
      (createReservation s date time people userId).1.status = 201) := by
  constructor
  · intro hex
    have hsome : (s.reservations.find? (conflictsWith t.id (date.getD "") (time.getD ""))).isSome := by
      rw [List.find?_isSome]
      obtain ⟨r, hr, h1, h2, h3, h4⟩ := hex
      refine ⟨r, hr, ?_⟩
      unfold conflictsWith
      rcases h4 with h4 | h4 <;> simp [h1, h2, h3, h4]
    obtain ⟨r, hr⟩ := Option.isSome_iff_exists.mp hsome
    simp [createReservation, hv, ht, hr]
  · intro hall
    have hnone : s.reservations.find? (conflictsWith t.id (date.getD "") (time.getD "")) = none := by
      rw [List.find?_eq_none]
      intro r hr hcon
      unfold conflictsWith at hcon
      simp only [Bool.and_eq_true, Bool.or_eq_true, beq_iff_eq] at hcon
      obtain ⟨⟨⟨h1, h2⟩, h3⟩, h4⟩ := hcon
      obtain ⟨hb, hs⟩ := hall r hr h1 h2 h3
      rcases h4 with h4 | h4
      · exact hb h4
      · exact hs h4
    simp [createReservation, hv, ht, hnone]

/-- C5: cancelling an unknown reservation id answers 404 NotFound with the
store untouched; cancelling an existing one answers 200, returns the
reservation with status cancelled enriched with its user, marks every
stored copy of it cancelled, restores the bound table's availability to
true when a (positive, hence truthy) tableId is bound, and touches no
table when tableId is null. -/
theorem c5_cancel_spec (s : Store) (id : Nat) :
    (s.reservations.find? (fun r => r.id == id) = none →
      cancelReservation s id = (⟨404, none, some "Reservation not found"⟩, s)) ∧
    (∀ r0, s.reservations.find? (fun r => r.id == id) = some r0 →
      (cancelReservation s id).1.status = 200 ∧
      (cancelReservation s id).1.body.map (fun e => e.resv) =
        some { r0 with status := "cancelled" } ∧
      (cancelReservation s id).1.body.map (fun e => e.user) =
        some (s.users.find? (fun u => u.id == r0.userId)) ∧
      (∀ x ∈ (cancelReservation s id).2.reservations, x.id = id → x.status = "cancelled") ∧
      (∀ tid, r0.tableId = some tid → 0 < tid →
        ∀ tb ∈ (cancelReservation s id).2.tables, tb.id = tid → tb.isAvailable = true) ∧
      (r0.tableId = none → (cancelReservation s id).2.tables = s.tables)) := by
  constructor
  · intro h
    simp [cancelReservation, h]
  · intro r0 h
    by_cases htb : optNatTruthy r0.tableId = true
    · refine ⟨?_, ?_, ?_, ?_, ?_, ?_⟩
      · simp [cancelReservation, h, htb]
      · simp [cancelReservation, h, htb, enrich]
      · simp [cancelReservation, h, htb, enrich]
      · simp only [cancelReservation, h, htb, if_true]
        intro x hx
        exact mem_map_setCancelled id _ x (by simpa using hx)
      · intro tid htid hpos
        simp only [cancelReservation, h, htb, if_true]
        intro tb htbm
        have : tid = r0.tableId.getD 0 := by rw [htid]; rfl
        rw [this]
        exact mem_updateTableAvail _ true _ tb (by simpa using htbm)
      · intro hnone
        rw [hnone] at htb
        simp [optNatTruthy] at htb
    · have htb0 : optNatTruthy r0.tableId = false := by
        revert htb; cases optNatTruthy r0.tableId <;> simp
      refine ⟨?_, ?_, ?_, ?_, ?_, ?_⟩
      · simp [cancelReservation, h, htb0]
      · simp [cancelReservation, h, htb0, enrich]
      · simp [cancelReservation, h, htb0, enrich]
      · simp only [cancelReservation, h, htb0, Bool.false_eq_true, if_false]
        intro x hx
        exact mem_map_setCancelled id _ x (by simpa using hx)
      · intro tid htid hpos
        rw [htid] at htb0
        simp [optNatTruthy] at htb0
        omega
      · intro hnone
        simp [cancelReservation, h, htb0]

/-- C6: cancelling an existing reservation twice succeeds both times and
the second call leaves the store exactly as the first left it — the
engine does not special-case re-cancellation and harmlessly re-runs the
status write and the table-availability restore. -/
theorem c6_cancel_idempotent (s : Store) (id : Nat) (r0 : Reservation)
    (h : s.reservations.find? (fun r => r.id == id) = some r0) :
    (cancelReservation s id).1.status = 200 ∧
    (cancelReservation (cancelReservation s id).2 id).1.status = 200 ∧
    (cancelReservation (cancelReservation s id).2 id).2 = (cancelReservation s id).2 := by
  have hid : (r0.id == id) = true := by
    have hq := List.find?_some h
    simpa using hq
  have hp : ∀ x : Reservation, ((setCancelled id x).id == id) = (x.id == id) := by
    intro x
    rw [setCancelled_id]
  have hfind : (s.reservations.map (setCancelled id)).find? (fun r => r.id == id) =
      some (setCancelled id r0) := by
    rw [find?_map_pres _ _ hp, h]
    rfl
  have hsc : setCancelled id r0 = { r0 with status := "cancelled" } := by
    unfold setCancelled
    rw [if_pos hid]
  by_cases htb : optNatTruthy r0.tableId = true
  · refine ⟨by simp [cancelReservation, h, htb], ?_, ?_⟩
    · simp [cancelReservation, h, htb, hfind, hsc]
    · simp only [cancelReservation, h, htb, if_true, hfind, hsc]
      simp [map_idem_of (setCancelled id) (setCancelled_idem id),
        updateTableAvail_idem, htb]
  · have htb0 : optNatTruthy r0.tableId = false := by
      revert htb; cases optNatTruthy r0.tableId <;> simp
    refine ⟨by simp [cancelReservation, h, htb0], ?_, ?_⟩
    · simp [cancelReservation, h, htb0, hfind, hsc]
    · simp only [cancelReservation, h, htb0, Bool.false_eq_true, if_false, hfind, hsc]
      simp [map_idem_of (setCancelled id) (setCancelled_idem id), htb0]

/-- C7: deleting an unknown reservation id answers 404 NotFound with the
store untouched; deleting an existing one answers 204 with no body,
removes the record so a subsequent GET by that id answers 404, and
restores the bound table's availability when a (positive, hence truthy)
tableId was set. -/
theorem c7_delete_spec (s : Store) (id : Nat) :
    (s.reservations.find? (fun r => r.id == id) = none →
      deleteReservation s id = (⟨404, none, some "Reservation not found"⟩, s)) ∧
    (∀ r0, s.reservations.find? (fun r => r.id == id) = some r0 →
      (deleteReservation s id).1 = ⟨204, none, none⟩ ∧
      getReservation (deleteReservation s id).2 id =
        ⟨404, none, some "Reservation not found"⟩ ∧
      (∀ tid, r0.tableId = some tid → 0 < tid →
        ∀ tb ∈ (deleteReservation s id).2.tables, tb.id = tid → tb.isAvailable = true)) := by
  have hfilter : (s.reservations.filter (fun x => !(x.id == id))).find?
      (fun r => r.id == id) = none := by
    rw [List.find?_eq_none]
    intro x hx
    have hmem := (List.mem_filter.mp hx).2
    simpa using hmem
  constructor
  · intro h
    simp [deleteReservation, h]
  · intro r0 h
    by_cases htb : optNatTruthy r0.tableId = true
    · refine ⟨?_, ?_, ?_⟩
      · simp [deleteReservation, h, htb]
      · simp [deleteReservation, h, htb, getReservation, hfilter]
      · intro tid htid hpos
        simp only [deleteReservation, h, htb, if_true]
        intro tb htbm
        have : tid = r0.tableId.getD 0 := by rw [htid]; rfl
        rw [this]
        exact mem_updateTableAvail _ true _ tb (by simpa using htbm)
    · have htb0 : optNatTruthy r0.tableId = false := by
        revert htb; cases optNatTruthy r0.tableId <;> simp
      refine ⟨?_, ?_, ?_⟩
      · simp [deleteReservation, h, htb0]
      · simp [deleteReservation, h, htb0, getReservation, hfilter]
      · intro tid htid hpos
        rw [htid] at htb0
        simp [optNatTruthy] at htb0
        omega

/-- C8: the generic PUT /reservations/:id never touches tables or users,
keeps every other reservation unchanged, and on the named reservation
changes only the date/time/people/status fields — id, userId and tableId
are preserved. -/
theorem c8_update_frame (s : Store) (id : Nat) (date time : Option String)
    (people : Option Int) (status : Option String) :
    (updateReservation s id date time people status).2.users = s.users ∧
    (updateReservation s id date time people status).2.tables = s.tables ∧
    (updateReservation s id date time people status).2.reservations.length =
      s.reservations.length ∧
    ∀ i : Nat, ∀ h1 : i < s.reservations.length,
      ∀ h2 : i < (updateReservation s id date time people status).2.reservations.length,
      (((s.reservations.get ⟨i, h1⟩).id ≠ id →
        (updateReservation s id date time people status).2.reservations.get ⟨i, h2⟩ =
          s.reservations.get ⟨i, h1⟩) ∧
      ((updateReservation s id date time people status).2.reservations.get ⟨i, h2⟩).id =
        (s.reservations.get ⟨i, h1⟩).id ∧
      ((updateReservation s id date time people status).2.reservations.get ⟨i, h2⟩).userId =
        (s.reservations.get ⟨i, h1⟩).userId ∧
      ((updateReservation s id date time people status).2.reservations.get ⟨i, h2⟩).tableId =
        (s.reservations.get ⟨i, h1⟩).tableId) := by
  cases hf : s.reservations.find? (fun r => r.id == id) with
  | none =>
    refine ⟨by simp [updateReservation, hf], by simp [updateReservation, hf],
      by simp [updateReservation, hf], ?_⟩
    intro i h1 h2
    simp [updateReservation, hf]
  | some r0 =>
    refine ⟨by simp [updateReservation, hf], by simp [updateReservation, hf],
      by simp [updateReservation, hf], ?_⟩
    intro i h1 h2
    simp only [updateReservation, hf, List.get_eq_getElem, List.getElem_map]
    by_cases hcase : (s.reservations[i]).id = id
    · simp [hcase, applyResvUpdate]
    · simp [hcase]

/-- C9: when the PATCH /tables/:id body yields no valid field (absent,
falsy, wrongly typed, or out-of-range values), the call answers 400 with
no store write; when at least one valid field is present and the table
exists, it answers 200 and writes exactly the valid fields to that table,
leaving users, reservations and the other tables unchanged. -/
theorem c9_patch_table_spec (s : Store) (id : Nat)
    (name capacity isAvailable : Option JVal) :
    ((tableUpdates name capacity isAvailable).isEmpty = true →
      patchTable s id name capacity isAvailable =
        (⟨400, none, some "No valid fields to update"⟩, s)) ∧
    ((tableUpdates name capacity isAvailable).isEmpty = false →
      ∀ t0, s.tables.find? (fun t => t.id == id) = some t0 →
        (patchTable s id name capacity isAvailable).1.status = 200 ∧
        (patchTable s id name capacity isAvailable).1.body =
          some (applyTableUpdates (tableUpdates name capacity isAvailable) t0) ∧
        (patchTable s id name capacity isAvailable).2.users = s.users ∧
        (patchTable s id name capacity isAvailable).2.reservations = s.reservations ∧
        (patchTable s id name capacity isAvailable).2.tables.find? (fun t => t.id == id) =
          some (applyTableUpdates (tableUpdates name capacity isAvailable) t0) ∧
        (∀ tb ∈ s.tables, tb.id ≠ id →
          tb ∈ (patchTable s id name capacity isAvailable).2.tables)) := by
  constructor
  · intro hempty
    simp [patchTable, hempty]
  · intro hne t0 ht
    have hid : (t0.id == id) = true := by
      have hq := List.find?_some ht
      simpa using hq
    have hp : ∀ x : Table,
        ((if x.id == id then applyTableUpdates (tableUpdates name capacity isAvailable) x
          else x).id == id) = (x.id == id) := by
      intro x
      by_cases hx : x.id == id
      · rw [if_pos hx]
        have : (applyTableUpdates (tableUpdates name capacity isAvailable) x).id = x.id := rfl
        rw [this]
      · rw [if_neg hx]
    refine ⟨?_, ?_, ?_, ?_, ?_, ?_⟩
    · simp [patchTable, hne, ht]
    · simp [patchTable, hne, ht]
    · simp [patchTable, hne, ht]
    · simp [patchTable, hne, ht]
    · simp only [patchTable, hne, Bool.false_eq_true, if_false, ht]
      rw [find?_map_pres _ _ hp, ht]
      have hid2 : t0.id = id := by simpa using hid
      simp [hid2]
    · intro tb htb hneid
      simp only [patchTable, hne, Bool.false_eq_true, if_false, ht]
      refine List.mem_map.mpr ⟨tb, htb, ?_⟩
      rw [if_neg (by simpa using hneid)]

/-- C10: PATCH /users/:id treats falsy strings as absent — a body whose
username, email and password are all empty strings with isAdmin undefined
answers 400 No fields to update and writes nothing — while a body holding
only isAdmin false is a valid single-field update: 200, the returned and
stored user differ from the old row only in isAdmin = false. -/
theorem c10_patch_user_falsy (s : Store) (id : Nat) (x0 : User)
    (h : s.users.find? (fun x => x.id == id) = some x0) :
    patchUser s id (some "") (some "") (some "") none =
      (⟨400, none, some "No fields to update"⟩, s) ∧
    (patchUser s id none none none (some false)).1.status = 200 ∧
    (patchUser s id none none none (some false)).1.body =
      some { x0 with isAdmin := false } ∧
    (patchUser s id none none none (some false)).2.users.find? (fun x => x.id == id) =
      some { x0 with isAdmin := false } := by
  have hid : (x0.id == id) = true := by
    have hq := List.find?_some h
    simpa using hq
  have hu : userUpdates none none none (some false) =
      ⟨none, none, none, some false⟩ := rfl
  have happ : ∀ x : User, applyUserUpdates ⟨none, none, none, some false⟩ x =
      { x with isAdmin := false } := fun x => rfl
  have hp : ∀ x : User,
      ((if x.id == id then applyUserUpdates (userUpdates none none none (some false)) x
        else x).id == id) = (x.id == id) := by
    intro x
    by_cases hx : x.id == id
    · rw [if_pos hx]
      have : (applyUserUpdates (userUpdates none none none (some false)) x).id = x.id := rfl
      rw [this]
    · rw [if_neg hx]
  have hempty : (userUpdates (some "") (some "") (some "") none).isEmpty = true := rfl
  have hstep : patchUser s id none none none (some false) =
      match s.users.find? (fun x => x.id == id) with
      | none => (⟨404, none, some ("User with id " ++ toString id ++ " not found")⟩, s)
      | some y0 =>
        (⟨200, some (applyUserUpdates (userUpdates none none none (some false)) y0), none⟩,
         { s with users := s.users.map (fun x =>
             if x.id == id then applyUserUpdates (userUpdates none none none (some false)) x
             else x) }) := rfl
  have husers : (patchUser s id none none none (some false)).2.users =
      s.users.map (fun x =>
        if x.id == id then applyUserUpdates (userUpdates none none none (some false)) x
        else x) := by
    rw [hstep, h]
  refine ⟨?_, ?_, ?_, ?_⟩
  · simp [patchUser, hempty]
  · rw [hstep, h]
  · rw [hstep, h]
    show some (applyUserUpdates (userUpdates none none none (some false)) x0) =
      some { x0 with isAdmin := false }
    exact congrArg some (happ x0)
  · rw [husers, find?_map_pres _ _ hp, h]
    show some (if (x0.id == id) = true
        then applyUserUpdates (userUpdates none none none (some false)) x0 else x0) =
      some { x0 with isAdmin := false }
    rw [if_pos hid]
    exact congrArg some (happ x0)

/-- C1 witness: against `storeA` (one free 4-top, one user, no
reservations), booking a party of 2 at 2025-06-15 19:00 satisfies every
hypothesis and answers 201. -/
theorem c1_create_success_witness :
    createValidationFails (some "2025-06-15") (some "19:00") (some 2) (some 1) = false ∧
    storeA.tables.find? (candidatePred ((some (2 : Int)).getD 0)) = some tableOne ∧
    storeA.reservations.find?
      (conflictsWith tableOne.id ((some "2025-06-15").getD "") ((some "19:00").getD "")) = none ∧
    (createReservation storeA (some "2025-06-15") (some "19:00") (some 2) (some 1)).1.status = 201 ∧
    (∀ tb ∈ (createReservation storeA (some "2025-06-15") (some "19:00") (some 2) (some 1)).2.tables,
      tb.id = tableOne.id → tb.isAvailable = false) :=
  ⟨by decide, by decide, by decide,
   (c1_create_success storeA (some "2025-06-15") (some "19:00") (some 2) (some 1) tableOne
      (by decide) (by decide) (by decide)).1,
   (c1_create_success storeA (some "2025-06-15") (some "19:00") (some 2) (some 1) tableOne
      (by decide) (by decide) (by decide)).2.2.2.2.2.2⟩

/-- C2 witness: in `storeB` an active booking on table 1 at the same slot
forces 400 TableConflict with the store unchanged, while in `storeC` the
same slot holds only a cancelled reservation and creation answers 201. -/
theorem c2_conflict_exact_witness :
    createReservation storeB (some "2025-06-15") (some "19:00") (some 2) (some 1) =
      (⟨400, none, some "Table is already reserved for this time"⟩, storeB) ∧
    (createReservation storeC (some "2025-06-15") (some "19:00") (some 2) (some 1)).1.status = 201 :=
  ⟨(c2_conflict_exact storeB (some "2025-06-15") (some "19:00") (some 2) (some 1) tableOne
      (by decide) (by decide)).1
      ⟨bookedR, by decide, by decide, by decide, by decide, Or.inl (by decide)⟩,
   (c2_conflict_exact storeC (some "2025-06-15") (some "19:00") (some 2) (some 1) tableOne
      (by decide) (by decide)).2 (by decide)⟩

/-- C3 witness: in `storeD` the only table seats 2 and is unavailable, so
a party of 3 gets 400 NoTableAvailable and the store is unchanged. -/
theorem c3_no_table_available_witness :
    createValidationFails (some "2025-06-15") (some "19:00") (some 3) (some 1) = false ∧
    (∀ t ∈ storeD.tables, candidatePred ((some (3 : Int)).getD 0) t = false) ∧
    createReservation storeD (some "2025-06-15") (some "19:00") (some 3) (some 1) =
      (⟨400, none, some "No available table for this party size"⟩, storeD) :=
  ⟨by decide, by decide,
   c3_no_table_available storeD (some "2025-06-15") (some "19:00") (some 3) (some 1)
     (by decide) (by decide)⟩

/-- C4 witness: a missing date is rejected with 400 and `storeA` is
untouched. -/
theorem c4_validation_rejects_witness :
    createReservation storeA none (some "19:00") (some 2) (some 1) =
      (⟨400, none, some "Date, time, people (positive number), and userId are required"⟩, storeA) :=
  c4_validation_rejects storeA none (some "19:00") (some 2) (some 1) (Or.inl (by decide))

/-- C5 witness: cancelling the unknown id 2 in `storeA` answers 404 with
the store unchanged, and cancelling reservation 1 of `storeB` answers 200
and re-opens table 1. -/
theorem c5_cancel_spec_witness :
    cancelReservation storeA 2 = (⟨404, none, some "Reservation not found"⟩, storeA) ∧
    (cancelReservation storeB 1).1.status = 200 ∧
    (∀ tb ∈ (cancelReservation storeB 1).2.tables, tb.id = 1 → tb.isAvailable = true) :=
  ⟨(c5_cancel_spec storeA 2).1 (by decide),
   ((c5_cancel_spec storeB 1).2 bookedR (by decide)).1,
   ((c5_cancel_spec storeB 1).2 bookedR (by decide)).2.2.2.2.1 1 (by decide) (by decide)⟩

/-- C6 witness: cancelling reservation 1 of `storeB` twice succeeds twice
and the second call leaves the store exactly where the first did. -/
theorem c6_cancel_idempotent_witness :
    storeB.reservations.find? (fun r => r.id == 1) = some bookedR ∧
    ((cancelReservation storeB 1).1.status = 200 ∧
     (cancelReservation (cancelReservation storeB 1).2 1).1.status = 200 ∧
     (cancelReservation (cancelReservation storeB 1).2 1).2 = (cancelReservation storeB 1).2) :=
  ⟨by decide, c6_cancel_idempotent storeB 1 bookedR (by decide)⟩

/-- C7 witness: deleting the unknown id 2 in `storeA` answers 404;
deleting reservation 1 of `storeB` answers 204, a subsequent GET of id 1
answers 404, and table 1 is re-opened. -/
theorem c7_delete_spec_witness :
    deleteReservation storeA 2 = (⟨404, none, some "Reservation not found"⟩, storeA) ∧
    (deleteReservation storeB 1).1 = ⟨204, none, none⟩ ∧
    getReservation (deleteReservation storeB 1).2 1 =
      ⟨404, none, some "Reservation not found"⟩ ∧
    (∀ tb ∈ (deleteReservation storeB 1).2.tables, tb.id = 1 → tb.isAvailable = true) :=
  ⟨(c7_delete_spec storeA 2).1 (by decide),
   ((c7_delete_spec storeB 1).2 bookedR (by decide)).1,
   ((c7_delete_spec storeB 1).2 bookedR (by decide)).2.1,
   ((c7_delete_spec storeB 1).2 bookedR (by decide)).2.2 1 (by decide) (by decide)⟩

/-- C8 witness: setting reservation 1 of `storeB` to status cancelled via
the generic update leaves every table record untouched. -/
theorem c8_update_frame_witness :
    (updateReservation storeB 1 none none none (some "cancelled")).2.tables = storeB.tables ∧
    (updateReservation storeB 1 none none none (some "cancelled")).2.users = storeB.users :=
  ⟨(c8_update_frame storeB 1 none none none (some "cancelled")).2.1,
   (c8_update_frame storeB 1 none none none (some "cancelled")).1⟩

/-- C9 witness: a body holding only a non-string name, a negative integer
capacity and a null availability has no valid field and answers 400 with
`storeA` unchanged, while a lone valid name answers 200 and writes only
the name. -/
theorem c9_patch_table_spec_witness :
    patchTable storeA 1 (some (JVal.jNum 7)) (some (JVal.jNum (-3))) (some JVal.jNull) =
      (⟨400, none, some "No valid fields to update"⟩, storeA) ∧
    (patchTable storeA 1 (some (JVal.jStr "Patio")) none none).1.status = 200 ∧
    (patchTable storeA 1 (some (JVal.jStr "Patio")) none none).1.body =
      some ⟨1, "Patio", 4, true⟩ :=
  ⟨(c9_patch_table_spec storeA 1 (some (JVal.jNum 7)) (some (JVal.jNum (-3)))
      (some JVal.jNull)).1 (by decide),
   ((c9_patch_table_spec storeA 1 (some (JVal.jStr "Patio")) none none).2
      (by decide) tableOne (by decide)).1,
   (((c9_patch_table_spec storeA 1 (some (JVal.jStr "Patio")) none none).2
      (by decide) tableOne (by decide)).2.1).trans (by decide)⟩

/-- C10 witness: all-empty-string fields with isAdmin undefined answer 400
and leave `storeA` unchanged, while a body holding only isAdmin false is
accepted and flips alice's admin flag off. -/
theorem c10_patch_user_falsy_witness :
    patchUser storeA 1 (some "") (some "") (some "") none =
      (⟨400, none, some "No fields to update"⟩, storeA) ∧
    (patchUser storeA 1 none none none (some false)).1.status = 200 ∧
    (patchUser storeA 1 none none none (some false)).1.body =
      some ⟨1, "alice", "alice@example.com", "pw", false⟩ :=
  ⟨(c10_patch_user_falsy storeA 1 aliceU (by decide)).1,
   (c10_patch_user_falsy storeA 1 aliceU (by decide)).2.1,
   ((c10_patch_user_falsy storeA 1 aliceU (by decide)).2.2.1).trans (by decide)⟩

end Resto
